import Mathlib

/-!
Shallow embedding of the 3D building viewer component
(frontend/src/components/Viewer3D.jsx) of the safe-high-rise repository:
the DetailedBuilding procedural-geometry generator, its free-text
material/structure style resolver, the per-frame hazard-simulation
updates, and the snapshot capability of the Viewer3D wrapper.

Numbers are modelled as rationals; rotation angles that the source
stores in radians (multiples of pi coming from `Math.PI`) are stored as
the rational coefficient of pi, so that every definition stays
computable; theorems about radian values multiply the coefficient by
`Real.pi`.
-/

namespace SafeHighRise

/-- Lower-casing of a string, modelling JavaScript `String.prototype.toLowerCase`
for the ASCII texts the component receives. -/
def toLowerStr (s : String) : String := String.mk (s.toList.map Char.toLower)

/-- List version of "the second list occurs at the start of the first". -/
def startsWithL : List Char → List Char → Bool
  | _, [] => true
  | [], _ :: _ => false
  | a :: as, b :: bs => a == b && startsWithL as bs

/-- List version of substring containment. -/
def containsL : List Char → List Char → Bool
  | [], needle => needle.isEmpty
  | h :: t, needle => startsWithL (h :: t) needle || containsL t needle

/-- Model of JavaScript `String.prototype.includes` (case-sensitive
substring containment). -/
def includes (hay needle : String) : Bool := containsL hay.toList needle.toList

/-- Model of JavaScript `x || d` for an optional numeric field: `undefined`,
`null` and `0` are falsy and fall back to the default. -/
def orDefault (v : Option ℚ) (d : ℚ) : ℚ :=
  match v with
  | none => d
  | some x => if x = 0 then d else x

/-- The `geometry_params` object of the RiskAssessmentResult record. -/
structure GeometryParams where
  type : Option String := none
  height : Option ℚ := none
  taper : Option ℚ := none
  twist : Option ℚ := none
deriving DecidableEq

/-- The fields of the RiskAssessmentResult record that DetailedBuilding
reads (`params` prop). Optional fields model `undefined` reachable through
the `?.` chains in the source. -/
structure BuildingParams where
  geometry_params : Option GeometryParams := none
  seismic_zone : Option String := none
  flood_risk : Option String := none
  material : Option String := none
  structureRecommendation : Option String := none
  max_wind_speed : Option ℚ := none
deriving DecidableEq

/-- Source: `const geoParams = params?.geometry_params || {};`. -/
def geoParamsOf (p : BuildingParams) : GeometryParams :=
  p.geometry_params.getD {}

/-- Source: `const height = geoParams.height || 300;`. -/
def heightVal (g : GeometryParams) : ℚ := orDefault g.height 300

/-- Source: `const taperRatio = geoParams.taper || 1.0;`. -/
def taperVal (g : GeometryParams) : ℚ := orDefault g.taper 1

/-- Source: `const twistTotal = (geoParams.twist || 0) * (Math.PI / 180);`.
This is the coefficient of pi: the twist in radians is `twistPiCoeff * pi`. -/
def twistPiCoeff (g : GeometryParams) : ℚ := orDefault g.twist 0 / 180

/-- Source: `const floorCount = 30;`. -/
def floorCount : ℕ := 30

/-- Source: `const floorHeight = 1.2;`. -/
def floorHeight : ℚ := 6 / 5

/-- Source: `params?.profile?.seismic_zone?.includes("High") ? 0.05 : 0.02`. -/
def seismicPGA (seismicZone : Option String) : ℚ :=
  if (seismicZone.map (fun s => includes s "High")).getD false then 5 / 100 else 2 / 100

/-- Source: `params?.profile?.flood_risk?.includes("High") ? 15 : 5`. -/
def floodRiskVal (floodRisk : Option String) : ℚ :=
  if (floodRisk.map (fun s => includes s "High")).getD false then 15 else 5

/-- Source: `const materialRec = params?.recommendations?.material?.toLowerCase() || "";`. -/
def materialRecOf (material : Option String) : String :=
  (material.map toLowerStr).getD ""

/-- Source: `const structureRec = params?.recommendations?.structure?.toLowerCase() || "";`. -/
def structureRecOf (structureRecommendation : Option String) : String :=
  (structureRecommendation.map toLowerStr).getD ""

/-- The resolved visual material style (the record literals returned by the
`materialStyle` useMemo). Fields absent from a source literal are `none`. -/
structure MaterialStyle where
  color : String
  roughness : ℚ
  metalness : ℚ
  name : String
  emissive : Option String := none
  emissiveIntensity : Option ℚ := none
deriving DecidableEq

/-- The `materialStyle` useMemo of DetailedBuilding: ordered first-match
keyword classification of the lower-cased material recommendation text. -/
def materialStyle (materialRec : String) : MaterialStyle :=
  let mat := toLowerStr materialRec
  if includes mat "living" || includes mat "moss" || includes mat "forest" ||
      includes mat "algae" || includes mat "bio" || includes mat "timber" ||
      includes mat "bamboo" then
    { color := "#166534", roughness := 1, metalness := 1 / 10,
      name := "Eco-Resilient Bio-Skin",
      emissive := some "#064e3b", emissiveIntensity := some (1 / 5) }
  else if includes mat "carbon" || includes mat "graphene" || includes mat "titanium" ||
      includes mat "alloy" || includes mat "fiber" then
    { color := "#1e293b", roughness := 1 / 5, metalness := 4 / 5,
      name := "Advanced Composite Alloy",
      emissive := some "#0f172a", emissiveIntensity := some (1 / 10) }
  else if includes mat "smart" || includes mat "kinetic" || includes mat "memory" ||
      includes mat "nanopolymer" || includes mat "self-healing" then
    { color := "#4f46e5", roughness := 1 / 10, metalness := 9 / 10,
      name := "Smart Nano-Structure",
      emissive := some "#312e81", emissiveIntensity := some (2 / 5) }
  else if includes mat "concrete" || includes mat "uhpc" || includes mat "geopolymer" ||
      includes mat "ceramic" then
    { color := "#94a3b8", roughness := 7 / 10, metalness := 1 / 5,
      name := "UHPC Geopolymer" }
  else
    { color := "#64748b", roughness := 3 / 10, metalness := 7 / 10,
      name := "Resilient Hybrid Composite" }

/-- Resolution of the raw (optional) material recommendation text, composing
the component's parsing with the `materialStyle` useMemo. -/
def resolveMaterial (material : Option String) : MaterialStyle :=
  materialStyle (materialRecOf material)

/-- Source: `structureRec.includes("diagrid") || ... ("exoskeleton") || ... ("helical")`. -/
def hasDiagrid (structureRec : String) : Bool :=
  includes structureRec "diagrid" || includes structureRec "exoskeleton" ||
    includes structureRec "helical"

/-- Source: `structureRec.includes("tube") || ... ("mega") || ... ("buttressed")`. -/
def hasThickColumns (structureRec : String) : Bool :=
  includes structureRec "tube" || includes structureRec "mega" ||
    includes structureRec "buttressed"

/-- Source: `structureRec.includes("outrigger") || ... ("belt")`. -/
def hasOutriggers (structureRec : String) : Bool :=
  includes structureRec "outrigger" || includes structureRec "belt"

/-- One entry of the `floors` useMemo array. `rotationPi` is the coefficient
of pi: the source's `rotation` field in radians equals `rotationPi * pi`. -/
structure FloorDescriptor where
  y : ℚ
  scale : ℚ
  rotationPi : ℚ
  id : ℕ
  isDiagridNode : Bool
deriving DecidableEq

/-- The record built for floor `i` inside the `floors` useMemo:
progress `i / floorCount`, scale `1 - (1 - taperRatio) * progress`,
rotation `twistTotal * progress`, vertical offset `i * floorHeight * 2.5`,
diagrid-node flag `i % 4 === 0`. -/
def floorDesc (g : GeometryParams) (i : ℕ) : FloorDescriptor :=
  let progress : ℚ := (i : ℚ) / (floorCount : ℚ)
  { y := (i : ℚ) * floorHeight * (5 / 2)
  , scale := 1 - (1 - taperVal g) * progress
  , rotationPi := twistPiCoeff g * progress
  , id := i
  , isDiagridNode := decide (i % 4 = 0) }

/-- The `floors` useMemo: `Array.from(length: floorCount).map((_, i) => ...)`.
Its dependency list is `[floorCount, taperRatio, twistTotal]`. -/
def floors (g : GeometryParams) : List FloorDescriptor :=
  (List.range floorCount).map (floorDesc g)

/-- A clipping plane (the three.js `Plane(normal, constant)` value). -/
structure ClipPlane where
  normalX : ℚ
  normalY : ℚ
  normalZ : ℚ
  planeConstant : ℚ
deriving DecidableEq

/-- The single cutaway half-space: `new THREE.Plane(new THREE.Vector3(-1, 0, 0), 0)`. -/
def cutawayPlane : ClipPlane :=
  { normalX := -1, normalY := 0, normalZ := 0, planeConstant := 0 }

/-- The `clipPlanes` useMemo: empty when cutaway is off, the single
half-space plane when it is on. -/
def clipPlanes (isCutaway : Bool) : List ClipPlane :=
  if isCutaway then [cutawayPlane] else []

/-- A geometry primitive attached to a mesh: either a `cylinderGeometry`
(radiusTop, radiusBottom, height, radialSegments) or a `boxGeometry`
(width, height, depth). -/
inductive LayerGeom
  | cylinder (radiusTop radiusBottom : ℚ) (heightArg : ℚ) (segments : ℕ)
  | box (width heightArg depth : ℚ)
deriving DecidableEq

/-- Floor-slab geometry selection: the list of mutually exclusive
`geoParams.type === ...` conditions inside the floor-slab mesh. When no
condition matches (unset or unknown type) no geometry element is emitted. -/
def slabGeometry (gtype : Option String) (s : ℚ) : Option LayerGeom :=
  if gtype = some "cylinder" then some (.cylinder (5 * s) (5 * s) (1 / 2) 32)
  else if gtype = some "hexagon" then some (.cylinder (5 * s) (5 * s) (1 / 2) 6)
  else if gtype = some "triangle" then some (.cylinder (6 * s) (6 * s) (1 / 2) 3)
  else if gtype = some "pyramid" then some (.cylinder 0 (6 * s) (1 / 2) 4)
  else if gtype = some "prism" then some (.cylinder (5 * s) (5 * s) (1 / 2) 3)
  else if gtype = some "box" ∨ gtype = some "tapered" ∨ gtype = some "twisted" then
    some (.box 10 (1 / 2) 10)
  else none

/-- Inner material-layer geometry selection (cutaway layer 2). -/
def innerLayerGeometry (gtype : Option String) (s : ℚ) : Option LayerGeom :=
  if gtype = some "cylinder" then some (.cylinder (21 / 5 * s) (21 / 5 * s) (3 / 20) 32)
  else if gtype = some "hexagon" then some (.cylinder (21 / 5 * s) (21 / 5 * s) (3 / 20) 6)
  else if gtype = some "triangle" then some (.cylinder (5 * s) (5 * s) (3 / 20) 3)
  else if gtype = some "pyramid" then some (.cylinder 0 (5 * s) (3 / 20) 4)
  else if gtype = some "prism" then some (.cylinder (21 / 5 * s) (21 / 5 * s) (3 / 20) 3)
  else if gtype = some "box" ∨ gtype = some "tapered" ∨ gtype = some "twisted" then
    some (.box 9 (3 / 20) 9)
  else none

/-- Insulation-ring geometry selection (cutaway layer shown when i mod 3 = 0). -/
def insulationGeometry (gtype : Option String) (s : ℚ) : Option LayerGeom :=
  if gtype = some "cylinder" then some (.cylinder (9 / 2 * s) (9 / 2 * s) (2 / 25) 32)
  else if gtype = some "hexagon" then some (.cylinder (9 / 2 * s) (9 / 2 * s) (2 / 25) 6)
  else if gtype = some "triangle" then some (.cylinder (53 / 10 * s) (53 / 10 * s) (2 / 25) 3)
  else if gtype = some "pyramid" then some (.cylinder 0 (53 / 10 * s) (2 / 25) 4)
  else if gtype = some "prism" then some (.cylinder (9 / 2 * s) (9 / 2 * s) (2 / 25) 3)
  else if gtype = some "box" ∨ gtype = some "tapered" ∨ gtype = some "twisted" then
    some (.box (19 / 2) (2 / 25) (19 / 2))
  else none

/-- Mechanical-floor block geometry selection (shown when i mod 15 = 0, i > 0). -/
def mechanicalGeometry (gtype : Option String) (s : ℚ) : Option LayerGeom :=
  if gtype = some "cylinder" then some (.cylinder (24 / 5 * s) (24 / 5 * s) (4 / 5) 32)
  else if gtype = some "hexagon" then some (.cylinder (24 / 5 * s) (24 / 5 * s) (4 / 5) 6)
  else if gtype = some "triangle" then some (.cylinder (29 / 5 * s) (29 / 5 * s) (4 / 5) 3)
  else if gtype = some "pyramid" then some (.cylinder 0 (29 / 5 * s) (4 / 5) 4)
  else if gtype = some "prism" then some (.cylinder (24 / 5 * s) (24 / 5 * s) (4 / 5) 3)
  else if gtype = some "box" ∨ gtype = some "tapered" ∨ gtype = some "twisted" then
    some (.box (49 / 5) (4 / 5) (49 / 5))
  else none

/-- Facade-ring geometry selection. -/
def facadeGeometry (gtype : Option String) (s : ℚ) : Option LayerGeom :=
  if gtype = some "cylinder" then some (.cylinder (49 / 10 * s) (49 / 10 * s) 2 32)
  else if gtype = some "hexagon" then some (.cylinder (49 / 10 * s) (49 / 10 * s) 2 6)
  else if gtype = some "triangle" then some (.cylinder (29 / 5 * s) (29 / 5 * s) 2 3)
  else if gtype = some "pyramid" then some (.cylinder 0 (29 / 5 * s) 2 4)
  else if gtype = some "prism" then some (.cylinder (49 / 10 * s) (49 / 10 * s) 2 3)
  else if gtype = some "box" ∨ gtype = some "tapered" ∨ gtype = some "twisted" then
    some (.box (49 / 5) 2 (49 / 5))
  else none

/-- The column style a floor's structural overlay renders. -/
inductive ColumnStyle
  | diagrid
  | mega
  | standard
deriving DecidableEq

/-- Per-floor structural overlay: the column-style ternary chain
(`hasDiagrid ? ... : hasThickColumns ? ... : ...`) and the independent
belt-truss condition `hasOutriggers && (i % 10 === 0)`. -/
structure StructuralOverlay where
  style : ColumnStyle
  hasBeltTruss : Bool
deriving DecidableEq

/-- The structural overlay rendered at floor `i` for the (lower-cased)
structure recommendation text. -/
def structuralOverlay (structureRec : String) (i : ℕ) : StructuralOverlay :=
  { style :=
      if hasDiagrid structureRec then ColumnStyle.diagrid
      else if hasThickColumns structureRec then ColumnStyle.mega
      else ColumnStyle.standard
  , hasBeltTruss := hasOutriggers structureRec && decide (i % 10 = 0) }

/-- Tilt of a diagrid member at position index `idx`, as a coefficient of pi:
`idx % 2 === 0 ? Math.PI / 4 : -Math.PI / 4`. -/
def diagridTiltPi (idx : ℕ) : ℚ := if idx % 2 = 0 then 1 / 4 else -(1 / 4)

/-- The cutaway cut-face plane: position y `height / 25`, square side
`height / 5` (from `planeGeometry args=[height / 5, height / 5]`). -/
def cutFaceY (g : GeometryParams) : ℚ := heightVal g / 25

/-- Side length of the cutaway cut-face plane. -/
def cutFaceSide (g : GeometryParams) : ℚ := heightVal g / 5

/-- The simulation state machine's states; `idle` models the `null`
simulationMode prop. -/
inductive SimulationMode
  | idle
  | quake
  | flood
  | fire
deriving DecidableEq

/-- THREE.MathUtils.lerp: `(1 - t) * x + t * y`. -/
def lerp (x y t : ℚ) : ℚ := (1 - t) * x + t * y

/-- Mutable state of the flood water plane: vertical position and opacity. -/
structure WaterState where
  y : ℚ
  opacity : ℚ
deriving DecidableEq

/-- The resting state the water plane mesh is created with:
`position=[0, -5, 0]`, `opacity=0`. -/
def waterRest : WaterState := { y := -5, opacity := 0 }

/-- The flood branch of the useFrame callback: while `flood` is active the
plane lerps toward `targetHeight / 2` and opacity `0.8` with factor `0.02`;
otherwise it recedes toward `-5` and opacity `0` with factor `0.05`.
`target` is the tier value `floodRisk` (15 or 5). -/
def waterStep (mode : SimulationMode) (target : ℚ) (w : WaterState) : WaterState :=
  if mode = SimulationMode.flood then
    { y := lerp w.y (target / 2) (2 / 100)
    , opacity := lerp w.opacity (8 / 10) (2 / 100) }
  else
    { y := lerp w.y (-5) (5 / 100)
    , opacity := lerp w.opacity 0 (5 / 100) }

/-- Iterated flood-branch updates starting from the resting state. -/
def waterSeq (target : ℚ) : ℕ → WaterState
  | 0 => waterRest
  | n + 1 => waterStep SimulationMode.flood target (waterSeq target n)

/-- The building group's rotation state (three Euler angles, in radians
for `x` and `z`; `y` mixes constant increments with quake twist terms). -/
structure GroupRotation where
  x : ℚ
  y : ℚ
  z : ℚ
deriving DecidableEq

/-- The rotation part of the useFrame callback. `swayX`, `swayZ` and
`twistTerm` stand for the transcendental clock terms
`sin(5t) * seismicPGA * 2`, `cos(4t) * seismicPGA * 2` and
`sin(8t) * seismicPGA / 2`, which are inputs read from the clock; all
branching and arithmetic around them is modelled exactly: a constant
`0.002` azimuth increment when idle and not cutaway, direct assignment of
the sway terms under quake, and `lerp(current, 0, 0.1)` restoration of the
z and x angles in every non-quake frame. -/
def rotationStep (mode : SimulationMode) (isCutaway : Bool)
    (swayX swayZ twistTerm : ℚ) (r : GroupRotation) : GroupRotation :=
  let r1 :=
    if mode = SimulationMode.idle ∧ isCutaway = false then
      { r with y := r.y + 2 / 1000 }
    else r
  if mode = SimulationMode.quake then
    { x := swayZ
    , y := if isCutaway then r1.y else r1.y + twistTerm
    , z := swayX }
  else
    { r1 with z := lerp r1.z 0 (1 / 10), x := lerp r1.x 0 (1 / 10) }

/-- A render surface (canvas) with the image encoding of its currently
displayed frame, as produced by `canvas.toDataURL` with the image type. -/
structure RenderSurface where
  toDataURL : String → String

/-- The `captureSnapshot` method exposed by Viewer3D:
`canvas ? canvas.toDataURL('image/png') : null`. A total function: a
missing surface yields `none`, never a fault. -/
def captureSnapshot (canvas : Option RenderSurface) : Option String :=
  match canvas with
  | some c => some (c.toDataURL "image/png")
  | none => none

/-- The props of the DetailedBuilding component. -/
structure DetailedBuildingProps where
  params : BuildingParams
  isCutaway : Bool
  simulationMode : SimulationMode

/-- The floors array as computed inside DetailedBuilding from its props:
a function of the geometry params only. -/
def buildingFloors (p : DetailedBuildingProps) : List FloorDescriptor :=
  floors (geoParamsOf p.params)

/-- The concrete geometry params of the spec scenario:
type cylinder, height 300, taper 0.6, twist 90. -/
def cylinderParams : GeometryParams :=
  { type := some "cylinder", height := some 300, taper := some (3 / 5), twist := some 90 }

/-- The advanced-composite style record (priority rule 2 of the resolver). -/
def advancedCompositeStyle : MaterialStyle :=
  { color := "#1e293b", roughness := 1 / 5, metalness := 4 / 5,
    name := "Advanced Composite Alloy",
    emissive := some "#0f172a", emissiveIntensity := some (1 / 10) }

/-- The smart-nano style record (priority rule 3 of the resolver). -/
def smartNanoStyle : MaterialStyle :=
  { color := "#4f46e5", roughness := 1 / 10, metalness := 9 / 10,
    name := "Smart Nano-Structure",
    emissive := some "#312e81", emissiveIntensity := some (2 / 5) }

lemma floors_length (g : GeometryParams) : (floors g).length = 30 := by
  simp [floors, floorCount]

lemma floors_get (g : GeometryParams) (i : ℕ) (h : i < (floors g).length) :
    (floors g).get ⟨i, h⟩ = floorDesc g i := by
  simp [floors]

lemma cylinder_len_pos : 0 < (floors cylinderParams).length := by
  rw [floors_length] ; omega

lemma cylinder_len_29 : 29 < (floors cylinderParams).length := by
  rw [floors_length] ; omega

/-- C1 (counterexample): the material text of the scenario does NOT resolve
to the Smart Nano-Structure style: the "graphene" keyword of priority
rule 2 matches before rule 3 is reached. -/
theorem c1_counterexample :
    resolveMaterial (some "Self-Healing Graphene Composite") ≠ smartNanoStyle := by
  decide

/-- C1 (corrected): resolving "Self-Healing Graphene Composite" yields
category 2 (Advanced Composite Alloy: dark, low roughness, high metalness)
under the top-down first-match order, because "graphene" belongs to rule 2;
a smart-material text without rule-2 keywords does reach category 3. -/
theorem c1_amended :
    resolveMaterial (some "Self-Healing Graphene Composite") = advancedCompositeStyle ∧
    (resolveMaterial (some "Self-Healing Nanopolymer")).name = "Smart Nano-Structure" := by
  constructor
  · rw [resolveMaterial, materialStyle]
    rw [if_neg (by decide), if_pos (by decide)]
    rfl
  · decide

/-- C2 (counterexample): with the cross-section archetype unset (or an
unknown value), the floor-slab and facade layers emit no profile geometry
at all; they are omitted, not rendered with the rectangular profile. -/
theorem c2_counterexample :
    slabGeometry none 1 = none ∧
    facadeGeometry none 1 = none ∧
    slabGeometry (some "octagon") 1 = none ∧
    slabGeometry none 1 ≠ some (LayerGeom.box 10 (1 / 2) 10) := by
  decide

/-- C2 (corrected): for every geometry_params whose archetype is unset or
not one of cylinder, hexagon, triangle, pyramid, prism, box, tapered,
twisted, every per-floor layer (slab, facade, inner material ring,
insulation ring, mechanical-floor block) emits no profile geometry and is
therefore omitted, rather than falling back to the rectangular profile. -/
theorem c2_amended (t : Option String) (s : ℚ)
    (h1 : t ≠ some "cylinder") (h2 : t ≠ some "hexagon")
    (h3 : t ≠ some "triangle") (h4 : t ≠ some "pyramid")
    (h5 : t ≠ some "prism") (h6 : t ≠ some "box")
    (h7 : t ≠ some "tapered") (h8 : t ≠ some "twisted") :
    slabGeometry t s = none ∧ facadeGeometry t s = none ∧
    innerLayerGeometry t s = none ∧ insulationGeometry t s = none ∧
    mechanicalGeometry t s = none := by
  refine ⟨?_, ?_, ?_, ?_, ?_⟩ <;>
    simp [slabGeometry, facadeGeometry, innerLayerGeometry, insulationGeometry,
      mechanicalGeometry, h1, h2, h3, h4, h5, h6, h7, h8]

/-- C2 witness: the amended statement at the concrete unset archetype. -/
theorem c2_amended_witness :
    slabGeometry none 2 = none ∧ facadeGeometry none 2 = none ∧
    innerLayerGeometry none 2 = none ∧ insulationGeometry none 2 = none ∧
    mechanicalGeometry none 2 = none :=
  c2_amended none 2 (by decide) (by decide) (by decide) (by decide) (by decide)
    (by decide) (by decide) (by decide)

/-- C6: toggling cutaway mode (in either direction, for any props) leaves
the generated floors array, hence every FloorDescriptor field, unchanged;
cutaway only selects the clipping half-space (one plane when on, no plane
when off). -/
theorem c6_cutaway_preserves_floors (p : DetailedBuildingProps) (b : Bool) :
    buildingFloors { p with isCutaway := b } = buildingFloors p ∧
    clipPlanes true = [cutawayPlane] ∧ clipPlanes false = [] :=
  ⟨rfl, rfl, rfl⟩

/-- C8: captureSnapshot with no render surface returns null (none) and,
being a total function, never raises; with a surface it returns the
image-encoded string of the current frame. -/
theorem c8_capture_snapshot :
    captureSnapshot none = none ∧
    ∀ cv : RenderSurface, captureSnapshot (some cv) = some (cv.toDataURL "image/png") :=
  ⟨rfl, fun _ => rfl⟩

/-- C10: geometry params differing only in the height field generate the
identical floors array; the floor count is fixed at 30; height only
determines the cut-face plane's placement and size. -/
theorem c10_height_invariance (g : GeometryParams) (hA hB : Option ℚ) :
    floors { g with height := hA } = floors { g with height := hB } ∧
    (floors g).length = 30 ∧
    cutFaceY g = heightVal g / 25 ∧ cutFaceSide g = heightVal g / 5 :=
  ⟨rfl, floors_length g, rfl, rfl⟩

/-- C3: every floor descriptor satisfies the closed-form scale and rotation
formulas, and for the cylinder/300/0.6/90 scenario floor 29 has scale
within 1/5000 of 0.6133 and rotation (in radians) within 1/1000 of 1.518. -/
theorem c3_floor_formulas (g : GeometryParams) (i : ℕ) (hi : i < (floors g).length) :
    (((floors g).get ⟨i, hi⟩).scale = 1 - (1 - taperVal g) * ((i : ℚ) / 30) ∧
      (((floors g).get ⟨i, hi⟩).rotationPi : ℝ) * Real.pi =
        ((orDefault g.twist 0 : ℚ) : ℝ) * (Real.pi / 180) * ((i : ℝ) / 30)) ∧
    (∀ h29 : 29 < (floors cylinderParams).length,
      |((floors cylinderParams).get ⟨29, h29⟩).scale - 6133 / 10000| < 1 / 5000 ∧
      |(((floors cylinderParams).get ⟨29, h29⟩).rotationPi : ℝ) * Real.pi - 1518 / 1000| <
        1 / 1000) := by
  constructor
  · rw [floors_get]
    constructor
    · simp [floorDesc, floorCount]
    · simp only [floorDesc, floorCount, twistPiCoeff]
      push_cast
      ring
  · intro h29
    have e1 : ((floors cylinderParams).get ⟨29, h29⟩).scale = 46 / 75 := by
      rw [floors_get]
      norm_num [floorDesc, taperVal, orDefault, cylinderParams, floorCount]
    have e2 : ((floors cylinderParams).get ⟨29, h29⟩).rotationPi = 29 / 60 := by
      rw [floors_get]
      norm_num [floorDesc, twistPiCoeff, orDefault, cylinderParams, floorCount]
    constructor
    · rw [e1]
      rw [abs_sub_lt_iff]
      norm_num
    · rw [e2]
      have hl := Real.pi_gt_d6
      have hu := Real.pi_lt_d6
      rw [abs_sub_lt_iff]
      push_cast
      constructor <;> nlinarith [hl, hu]

/-- C3 witness: the formulas at floor 0 and the floor-29 approximations of
the concrete scenario. -/
theorem c3_floor_formulas_witness :
    ((floors cylinderParams).get ⟨0, cylinder_len_pos⟩).scale =
      1 - (1 - taperVal cylinderParams) * ((0 : ℚ) / 30) ∧
    |((floors cylinderParams).get ⟨29, cylinder_len_29⟩).scale - 6133 / 10000| < 1 / 5000 :=
  ⟨(c3_floor_formulas cylinderParams 0 cylinder_len_pos).1.1,
    ((c3_floor_formulas cylinderParams 0 cylinder_len_pos).2 cylinder_len_29).1⟩

/-- C5: in every frame whose simulation state is not quake (idle, flood or
fire, in particular the first frame after leaving quake), the roll (z) and
pitch (x) angles are set to lerp(current, 0, 0.1), an exponential decay by
factor 9/10, and a nonzero angle is never snapped to zero. -/
theorem c5_restore_lerp (mode : SimulationMode) (hm : mode ≠ SimulationMode.quake)
    (c : Bool) (sx sz tw : ℚ) (r : GroupRotation) :
    (rotationStep mode c sx sz tw r).z = lerp r.z 0 (1 / 10) ∧
    (rotationStep mode c sx sz tw r).x = lerp r.x 0 (1 / 10) ∧
    (rotationStep mode c sx sz tw r).z = (9 / 10) * r.z ∧
    (rotationStep mode c sx sz tw r).x = (9 / 10) * r.x ∧
    (r.z ≠ 0 → (rotationStep mode c sx sz tw r).z ≠ 0) ∧
    (r.x ≠ 0 → (rotationStep mode c sx sz tw r).x ≠ 0) := by
  have hb : ∀ r1 : GroupRotation,
      (if mode = SimulationMode.idle ∧ c = false then
        { r1 with y := r1.y + 2 / 1000 } else r1).z = r1.z := by
    intro r1
    split <;> rfl
  have hbx : ∀ r1 : GroupRotation,
      (if mode = SimulationMode.idle ∧ c = false then
        { r1 with y := r1.y + 2 / 1000 } else r1).x = r1.x := by
    intro r1
    split <;> rfl
  have hz : (rotationStep mode c sx sz tw r).z = lerp r.z 0 (1 / 10) := by
    rw [rotationStep, if_neg hm, hb r]
  have hx : (rotationStep mode c sx sz tw r).x = lerp r.x 0 (1 / 10) := by
    rw [rotationStep, if_neg hm, hbx r]
  have hz9 : (rotationStep mode c sx sz tw r).z = (9 / 10) * r.z := by
    rw [hz, lerp] ; ring
  have hx9 : (rotationStep mode c sx sz tw r).x = (9 / 10) * r.x := by
    rw [hx, lerp] ; ring
  refine ⟨hz, hx, hz9, hx9, ?_, ?_⟩
  · intro h0
    rw [hz9]
    exact mul_ne_zero (by norm_num) h0
  · intro h0
    rw [hx9]
    exact mul_ne_zero (by norm_num) h0

/-- C5 witness: the decay at a concrete non-quake frame. -/
theorem c5_restore_lerp_witness :
    (rotationStep SimulationMode.flood false 0 0 0 ⟨1, 2, 3⟩).z = (9 / 10) * 3 ∧
    (rotationStep SimulationMode.flood false 0 0 0 ⟨1, 2, 3⟩).z ≠ 0 := by
  have h := c5_restore_lerp SimulationMode.flood (by decide) false 0 0 0 ⟨1, 2, 3⟩
  exact ⟨h.2.2.1, h.2.2.2.2.1 (by norm_num)⟩

/-- C7: the column style is chosen by the priority chain diagrid, then
thick/mega columns, then standard (exactly one per floor); the belt-truss
ring is an independent overlay present exactly when hasOutriggers holds and
the floor index is a multiple of 10; diagrid tilt alternates with
position-index parity. -/
theorem c7_structural_overlay (s : String) (i idx : ℕ) :
    (hasDiagrid s = true → (structuralOverlay s i).style = ColumnStyle.diagrid) ∧
    (hasDiagrid s = false → hasThickColumns s = true →
      (structuralOverlay s i).style = ColumnStyle.mega) ∧
    (hasDiagrid s = false → hasThickColumns s = false →
      (structuralOverlay s i).style = ColumnStyle.standard) ∧
    ((structuralOverlay s i).hasBeltTruss = true ↔
      (hasOutriggers s = true ∧ i % 10 = 0)) ∧
    diagridTiltPi (idx + 1) = -diagridTiltPi idx := by
  refine ⟨?_, ?_, ?_, ?_, ?_⟩
  · intro h
    simp [structuralOverlay, h]
  · intro h1 h2
    simp [structuralOverlay, h1, h2]
  · intro h1 h2
    simp [structuralOverlay, h1, h2]
  · simp [structuralOverlay, Bool.and_eq_true, decide_eq_true_eq]
  · rcases Nat.mod_two_eq_zero_or_one idx with h | h
    · have h2 : (idx + 1) % 2 = 1 := by omega
      simp [diagridTiltPi, h, h2]
    · have h2 : (idx + 1) % 2 = 0 := by omega
      simp [diagridTiltPi, h, h2]

/-- C7 witness: a diagrid and outrigger structure text at floor 20. -/
theorem c7_structural_overlay_witness :
    (structuralOverlay "diagrid core with outrigger belt" 20).style = ColumnStyle.diagrid ∧
    (structuralOverlay "diagrid core with outrigger belt" 20).hasBeltTruss = true ∧
    diagridTiltPi 1 = -diagridTiltPi 0 := by
  have h := c7_structural_overlay "diagrid core with outrigger belt" 20 0
  exact ⟨h.1 (by decide), h.2.2.2.1.mpr ⟨by decide, by decide⟩, h.2.2.2.2⟩

/-- C9: for every geometry params, floor 0 has scale 1 and rotation 0; a
taper field below 1 makes the scale sequence non-increasing in the floor
index, and taper exactly 1 makes it constantly 1. -/
theorem c9_scale_monotone (g : GeometryParams) :
    (∀ h0 : 0 < (floors g).length,
      ((floors g).get ⟨0, h0⟩).scale = 1 ∧ ((floors g).get ⟨0, h0⟩).rotationPi = 0) ∧
    (∀ t : ℚ, g.taper = some t → t < 1 →
      ∀ i j : ℕ, ∀ hi : i < (floors g).length, ∀ hj : j < (floors g).length,
        i ≤ j → ((floors g).get ⟨j, hj⟩).scale ≤ ((floors g).get ⟨i, hi⟩).scale) ∧
    (g.taper = some 1 →
      ∀ i : ℕ, ∀ hi : i < (floors g).length, ((floors g).get ⟨i, hi⟩).scale = 1) := by
  refine ⟨?_, ?_, ?_⟩
  · intro h0
    rw [floors_get]
    constructor <;> simp [floorDesc]
  · intro t ht htlt i j hi hj hij
    rw [floors_get, floors_get]
    have htv : taperVal g ≤ 1 := by
      rw [taperVal, ht, orDefault]
      split
      · exact le_refl 1
      · linarith
    have h1 : (0 : ℚ) ≤ 1 - taperVal g := by linarith
    have h2 : (i : ℚ) / 30 ≤ (j : ℚ) / 30 := by
      have : (i : ℚ) ≤ (j : ℚ) := by exact_mod_cast hij
      linarith
    simp only [floorDesc, floorCount]
    have h3 := mul_le_mul_of_nonneg_left h2 h1
    push_cast
    linarith
  · intro ht i hi
    rw [floors_get]
    simp [floorDesc, taperVal, ht, orDefault]

/-- C9 witness: the taper-0.6 scenario params at floors 0 and 29. -/
theorem c9_scale_monotone_witness :
    ((floors cylinderParams).get ⟨0, cylinder_len_pos⟩).scale = 1 ∧
    ((floors cylinderParams).get ⟨29, cylinder_len_29⟩).scale ≤
      ((floors cylinderParams).get ⟨0, cylinder_len_pos⟩).scale := by
  have h := c9_scale_monotone cylinderParams
  exact ⟨(h.1 cylinder_len_pos).1,
    h.2.1 (3 / 5) rfl (by norm_num) 0 29 cylinder_len_pos cylinder_len_29 (by omega)⟩

/-- C4: starting from the resting state, iterated flood-frame updates move
the water plane height strictly upward while staying strictly below the
tier-derived target (floodRisk / 2, lerp factor 0.02); in any non-flood
frame a height above the resting position strictly decreases toward it and
never passes it (lerp factor 0.05); the recede factor 0.05 exceeds the
rise factor 0.02, as the per-step displacement identities show. -/
theorem c4_flood_monotone (floodText : Option String) (n : ℕ)
    (m : SimulationMode) (hm : m ≠ SimulationMode.flood)
    (w : WaterState) (hw : -5 < w.y) :
    ((waterSeq (floodRiskVal floodText) n).y <
        (waterSeq (floodRiskVal floodText) (n + 1)).y ∧
      (waterSeq (floodRiskVal floodText) n).y < floodRiskVal floodText / 2) ∧
    ((waterStep m (floodRiskVal floodText) w).y < w.y ∧
      -5 < (waterStep m (floodRiskVal floodText) w).y) ∧
    (w.y - (waterStep m (floodRiskVal floodText) w).y = 5 / 100 * (w.y - (-5)) ∧
      (waterStep SimulationMode.flood (floodRiskVal floodText) w).y - w.y =
        2 / 100 * (floodRiskVal floodText / 2 - w.y) ∧
      (2 : ℚ) / 100 < 5 / 100) := by
  have htar : (-5 : ℚ) < floodRiskVal floodText / 2 := by
    rw [floodRiskVal]
    split <;> norm_num
  have hstep : ∀ v : WaterState,
      (waterStep SimulationMode.flood (floodRiskVal floodText) v).y =
        lerp v.y (floodRiskVal floodText / 2) (2 / 100) := by
    intro v
    rw [waterStep, if_pos rfl]
  have hrec : (waterStep m (floodRiskVal floodText) w).y = lerp w.y (-5) (5 / 100) := by
    rw [waterStep, if_neg hm]
  have inv : ∀ k : ℕ, (waterSeq (floodRiskVal floodText) k).y < floodRiskVal floodText / 2 := by
    intro k
    induction k with
    | zero => simpa [waterSeq, waterRest] using htar
    | succ k ih =>
        rw [waterSeq, hstep, lerp]
        nlinarith [ih]
  refine ⟨⟨?_, inv n⟩, ⟨?_, ?_⟩, ?_, ?_, by norm_num⟩
  · have := inv n
    rw [waterSeq, hstep, lerp]
    nlinarith [this]
  · rw [hrec, lerp]
    nlinarith [hw]
  · rw [hrec, lerp]
    nlinarith [hw]
  · rw [hrec, lerp]
    ring
  · rw [hstep, lerp]
    ring

/-- C4 witness: the high flood tier, one step from rest, and a receding
idle frame from height 0. -/
theorem c4_flood_monotone_witness :
    (waterSeq (floodRiskVal (some "High Risk")) 0).y <
      (waterSeq (floodRiskVal (some "High Risk")) 1).y ∧
    (waterStep SimulationMode.idle (floodRiskVal (some "High Risk")) ⟨0, 0⟩).y < 0 := by
  have h := c4_flood_monotone (some "High Risk") 0 SimulationMode.idle (by decide)
    ⟨0, 0⟩ (by norm_num)
  exact ⟨h.1.1, h.2.1.1⟩

end SafeHighRise
